import Mathlib

set_option linter.unusedVariables false

/-! Shallow embedding of the event-detection and adaptive-response core of the
Agentic AI Security Agent (FastAPI application under app/): the staged
detector pipeline of handle_event, the adaptive rate limiter, the websocket
broadcast fan-out, the LLM circuit breaker, the sliding-window metrics loop,
the monitor registry removal endpoint, the persisted attack log, and PII
masking. Definitions are translated from the Python sources; where a
definition stands in for a file absent from the checkout, its doc comment
says so. -/

/-- One detector result, a dict with at least attack_type / severity /
description; handle_event reads severity via result.get("severity"), a
string among "LOW" | "MEDIUM" | "HIGH" | "CRITICAL". -/
structure Detection where
  attack_type : String
  severity : String
  description : String
  deriving DecidableEq, Repr

/-- Outcome of awaiting one detector coroutine in handle_event: either the
call returns (an optional detection dict, None modelled as none) or it
raises an exception, which handle_event catches and logs. -/
inductive StageOutcome where
  | ok : Option Detection → StageOutcome
  | err : String → StageOutcome
  deriving DecidableEq, Repr

/-- One entry of DETECTOR_PIPELINE: the detector function's __name__ together
with what calling it on the event under consideration yields. -/
structure Stage where
  name : String
  outcome : StageOutcome
  deriving DecidableEq, Repr

/-- True when the stage's call returns a detection whose severity is the
string "CRITICAL" (the condition of the early-exit break in handle_event). -/
def producesCritical (s : Stage) : Bool :=
  match s.outcome with
  | .ok (some d) => d.severity = "CRITICAL"
  | _ => false

/-- Trace of the first detector loop of handle_event: the detections
accumulated, the (index, stage) pairs actually invoked, and the
critical_found flag. -/
structure FastScan where
  detections : List Detection
  invoked : List (Nat × Stage)
  critical_found : Bool
  deriving DecidableEq, Repr

/-- The first loop of handle_event (app/api/endpoints.py, lines 70-85): each
detector of DETECTOR_PIPELINE except the one named detect_llm_anomaly is
awaited in list order; an exception is caught and the loop continues; a
result is appended when truthy; a CRITICAL severity breaks out of the loop
with critical_found set. k is the pipeline index of the head stage. -/
def runFastFrom (k : Nat) : List Stage → FastScan
  | [] => ⟨[], [], false⟩
  | s :: rest =>
    if s.name = "detect_llm_anomaly" then runFastFrom (k+1) rest
    else
      match s.outcome with
      | .err _ =>
        let r := runFastFrom (k+1) rest
        ⟨r.detections, (k, s) :: r.invoked, r.critical_found⟩
      | .ok none =>
        let r := runFastFrom (k+1) rest
        ⟨r.detections, (k, s) :: r.invoked, r.critical_found⟩
      | .ok (some d) =>
        if d.severity = "CRITICAL" then ⟨[d], [(k, s)], true⟩
        else
          let r := runFastFrom (k+1) rest
          ⟨d :: r.detections, (k, s) :: r.invoked, r.critical_found⟩

/-- Result of the whole detection phase of handle_event: the detections
list, the invoked fast stages, the critical_found flag, and whether the
trailing detect_llm_anomaly call (endpoints.py lines 88-97) was made. -/
structure PipelineRun where
  detections : List Detection
  invoked : List (Nat × Stage)
  critical_found : Bool
  llm_invoked : Bool
  deriving DecidableEq, Repr

/-- The detection phase of handle_event (endpoints.py lines 65-97): run the
fast loop, then run detect_llm_anomaly only if no critical threat was found;
an exception from the LLM detector is caught, a truthy result is appended. -/
def runPipeline (stages : List Stage) (llm : StageOutcome) : PipelineRun :=
  let fast := runFastFrom 0 stages
  if fast.critical_found then
    ⟨fast.detections, fast.invoked, true, false⟩
  else
    match llm with
    | .err _ => ⟨fast.detections, fast.invoked, false, true⟩
    | .ok none => ⟨fast.detections, fast.invoked, false, true⟩
    | .ok (some d) => ⟨fast.detections ++ [d], fast.invoked, false, true⟩

lemma runFastFrom_invoked_ge (stages : List Stage) :
    ∀ k, ∀ p ∈ (runFastFrom k stages).invoked, k ≤ p.1 := by
  induction stages with
  | nil => intro k p hp; simp [runFastFrom] at hp
  | cons s rest ih =>
    obtain ⟨nm, oc⟩ := s
    intro k p hp
    by_cases hname : nm = "detect_llm_anomaly"
    · simp only [runFastFrom, if_pos hname] at hp
      exact Nat.le_of_succ_le (ih (k+1) p hp)
    · cases oc with
      | err m =>
        simp only [runFastFrom, if_neg hname, List.mem_cons] at hp
        rcases hp with h | h
        · rw [h]
        · exact Nat.le_of_succ_le (ih (k+1) p h)
      | ok od =>
        cases od with
        | none =>
          simp only [runFastFrom, if_neg hname, List.mem_cons] at hp
          rcases hp with h | h
          · rw [h]
          · exact Nat.le_of_succ_le (ih (k+1) p h)
        | some d =>
          by_cases hc : d.severity = "CRITICAL"
          · simp only [runFastFrom, if_neg hname, if_pos hc, List.mem_singleton] at hp
            rw [hp]
          · simp only [runFastFrom, if_neg hname, if_neg hc, List.mem_cons] at hp
            rcases hp with h | h
            · rw [h]
            · exact Nat.le_of_succ_le (ih (k+1) p h)

lemma runFastFrom_invoked_not_llm (stages : List Stage) :
    ∀ k, ∀ p ∈ (runFastFrom k stages).invoked, p.2.name ≠ "detect_llm_anomaly" := by
  induction stages with
  | nil => intro k p hp; simp [runFastFrom] at hp
  | cons s rest ih =>
    obtain ⟨nm, oc⟩ := s
    intro k p hp
    by_cases hname : nm = "detect_llm_anomaly"
    · simp only [runFastFrom, if_pos hname] at hp
      exact ih (k+1) p hp
    · cases oc with
      | err m =>
        simp only [runFastFrom, if_neg hname, List.mem_cons] at hp
        rcases hp with h | h
        · rw [h]; exact hname
        · exact ih (k+1) p h
      | ok od =>
        cases od with
        | none =>
          simp only [runFastFrom, if_neg hname, List.mem_cons] at hp
          rcases hp with h | h
          · rw [h]; exact hname
          · exact ih (k+1) p h
        | some d =>
          by_cases hc : d.severity = "CRITICAL"
          · simp only [runFastFrom, if_neg hname, if_pos hc, List.mem_singleton] at hp
            rw [hp]; exact hname
          · simp only [runFastFrom, if_neg hname, if_neg hc, List.mem_cons] at hp
            rcases hp with h | h
            · rw [h]; exact hname
            · exact ih (k+1) p h

lemma runFastFrom_critical (stages : List Stage) :
    ∀ k, (runFastFrom k stages).critical_found = true →
      ∃ p ∈ (runFastFrom k stages).invoked, producesCritical p.2 = true ∧
        ∀ q ∈ (runFastFrom k stages).invoked, q.1 ≤ p.1 := by
  induction stages with
  | nil => intro k h; simp [runFastFrom] at h
  | cons s rest ih =>
    obtain ⟨nm, oc⟩ := s
    intro k h
    by_cases hname : nm = "detect_llm_anomaly"
    · simp only [runFastFrom, if_pos hname] at h ⊢
      exact ih (k+1) h
    · cases oc with
      | err m =>
        simp only [runFastFrom, if_neg hname] at h ⊢
        obtain ⟨p, hp, hcrit, hmax⟩ := ih (k+1) h
        refine ⟨p, List.mem_cons_of_mem _ hp, hcrit, ?_⟩
        intro q hq
        rcases List.mem_cons.mp hq with hq | hq
        · rw [hq]
          exact Nat.le_of_succ_le (runFastFrom_invoked_ge rest (k+1) p hp)
        · exact hmax q hq
      | ok od =>
        cases od with
        | none =>
          simp only [runFastFrom, if_neg hname] at h ⊢
          obtain ⟨p, hp, hcrit, hmax⟩ := ih (k+1) h
          refine ⟨p, List.mem_cons_of_mem _ hp, hcrit, ?_⟩
          intro q hq
          rcases List.mem_cons.mp hq with hq | hq
          · rw [hq]
            exact Nat.le_of_succ_le (runFastFrom_invoked_ge rest (k+1) p hp)
          · exact hmax q hq
        | some d =>
          by_cases hc : d.severity = "CRITICAL"
          · simp only [runFastFrom, if_neg hname, if_pos hc] at h ⊢
            refine ⟨(k, ⟨nm, .ok (some d)⟩), List.mem_singleton.mpr rfl, ?_, ?_⟩
            · simp [producesCritical, hc]
            · intro q hq
              rw [List.mem_singleton] at hq
              rw [hq]
          · simp only [runFastFrom, if_neg hname, if_neg hc] at h ⊢
            obtain ⟨p, hp, hcrit, hmax⟩ := ih (k+1) h
            refine ⟨p, List.mem_cons_of_mem _ hp, hcrit, ?_⟩
            intro q hq
            rcases List.mem_cons.mp hq with hq | hq
            · rw [hq]
              exact Nat.le_of_succ_le (runFastFrom_invoked_ge rest (k+1) p hp)
            · exact hmax q hq

/-- C1: in handle_event's detection phase, if a detector before the LLM stage
produces a CRITICAL detection (critical_found set by the fast loop), then the
expensive detect_llm_anomaly stage is never invoked, nothing named
detect_llm_anomaly is ever invoked inside the fast loop, and no stage with a
pipeline index beyond the CRITICAL producer's index is invoked. -/
theorem C1_critical_skips_llm_and_later_stages (stages : List Stage) (llm : StageOutcome)
    (h : (runPipeline stages llm).critical_found = true) :
    (runPipeline stages llm).llm_invoked = false ∧
    (∀ p ∈ (runPipeline stages llm).invoked, p.2.name ≠ "detect_llm_anomaly") ∧
    ∃ p ∈ (runPipeline stages llm).invoked, producesCritical p.2 = true ∧
      ∀ q ∈ (runPipeline stages llm).invoked, q.1 ≤ p.1 := by
  have hfast : (runFastFrom 0 stages).critical_found = true := by
    by_contra hne
    simp only [runPipeline] at h
    rw [if_neg hne] at h
    cases llm with
    | err m => simp at h
    | ok od => cases od with
      | none => simp at h
      | some d => simp at h
  have hrun : runPipeline stages llm =
      ⟨(runFastFrom 0 stages).detections, (runFastFrom 0 stages).invoked, true, false⟩ := by
    simp [runPipeline, hfast]
  rw [hrun]
  refine ⟨rfl, ?_, ?_⟩
  · intro p hp
    exact runFastFrom_invoked_not_llm stages 0 p hp
  · exact runFastFrom_critical stages 0 hfast

/-- Witness for C1 at a concrete pipeline: a CRITICAL SQL-injection hit in
the first stage stops everything after it, including the LLM stage. -/
theorem C1_witness :
    (runPipeline
      [⟨"detect_sql_injection", .ok (some ⟨"SQL Injection", "CRITICAL", "d"⟩)⟩,
       ⟨"detect_llm_anomaly", .ok none⟩,
       ⟨"detect_card_testing", .ok (some ⟨"Card Testing", "HIGH", "d"⟩)⟩]
      (.ok (some ⟨"LLM Anomaly", "MEDIUM", "d"⟩))).critical_found = true ∧
    ((runPipeline
      [⟨"detect_sql_injection", .ok (some ⟨"SQL Injection", "CRITICAL", "d"⟩)⟩,
       ⟨"detect_llm_anomaly", .ok none⟩,
       ⟨"detect_card_testing", .ok (some ⟨"Card Testing", "HIGH", "d"⟩)⟩]
      (.ok (some ⟨"LLM Anomaly", "MEDIUM", "d"⟩))).llm_invoked = false ∧
     (∀ p ∈ (runPipeline
      [⟨"detect_sql_injection", .ok (some ⟨"SQL Injection", "CRITICAL", "d"⟩)⟩,
       ⟨"detect_llm_anomaly", .ok none⟩,
       ⟨"detect_card_testing", .ok (some ⟨"Card Testing", "HIGH", "d"⟩)⟩]
      (.ok (some ⟨"LLM Anomaly", "MEDIUM", "d"⟩))).invoked, p.2.name ≠ "detect_llm_anomaly") ∧
     ∃ p ∈ (runPipeline
      [⟨"detect_sql_injection", .ok (some ⟨"SQL Injection", "CRITICAL", "d"⟩)⟩,
       ⟨"detect_llm_anomaly", .ok none⟩,
       ⟨"detect_card_testing", .ok (some ⟨"Card Testing", "HIGH", "d"⟩)⟩]
      (.ok (some ⟨"LLM Anomaly", "MEDIUM", "d"⟩))).invoked, producesCritical p.2 = true ∧
       ∀ q ∈ (runPipeline
      [⟨"detect_sql_injection", .ok (some ⟨"SQL Injection", "CRITICAL", "d"⟩)⟩,
       ⟨"detect_llm_anomaly", .ok none⟩,
       ⟨"detect_card_testing", .ok (some ⟨"Card Testing", "HIGH", "d"⟩)⟩]
      (.ok (some ⟨"LLM Anomaly", "MEDIUM", "d"⟩))).invoked, q.1 ≤ p.1) :=
  ⟨by decide, C1_critical_skips_llm_and_later_stages _ _ (by decide)⟩

/-- RiskScore (app/models.py): score, contributing factors, severity label.
The score is modelled as a rational. -/
structure RiskScore where
  score : ℚ
  factors : List String
  severity : String
  deriving DecidableEq, Repr

/-- The initial_report dict assembled by handle_event (endpoints.py lines
110-111), restricted to the fields the claims are about. The severity key
of the report is risk_score.severity (later keys of the dict merge win). -/
structure IncidentReport where
  attack_type : String
  severity : String
  risk_score : ℚ
  risk_factors : List String
  ip : String
  timestamp : String
  deriving DecidableEq, Repr

/-- The slice of AppState (app/state.py) that handle_event mutates. The
rate-limit table maps a source IP to its expiry timestamp. -/
structure AppStateM where
  rate_limited_ips : String → Option ℚ
  error_event_timestamps : List ℚ
  attack_history : List IncidentReport

/-- collections.deque(maxlen=n).append: the new element goes on the right
and elements are evicted from the left while the length exceeds maxlen. -/
def dequeAppend {α : Type} (maxlen : ℕ) (l : List α) (x : α) : List α :=
  if l.length < maxlen then l ++ [x] else l.drop (l.length + 1 - maxlen) ++ [x]

/-- The background tasks handle_event schedules for a detected event
(endpoints.py lines 115-119), in order of scheduling. -/
inductive BgTask where
  | notifyAlerts (r : IncidentReport)
  | broadcastAttack (r : IncidentReport)
  | updateLocation (r : IncidentReport)
  deriving DecidableEq, Repr

/-- The response handle_event returns (endpoints.py lines 100-133). -/
inductive EventResponse where
  | noThreat
  | threatDetected (r : IncidentReport)
  | accessDenied (r : IncidentReport)
  deriving DecidableEq, Repr

/-- HTTP status of each response: 200 for the no-threat dict (decorator
status_code=200), 200 for threat_detected, 403 for the denial JSONResponse. -/
def statusCode : EventResponse → ℕ
  | .noThreat => 200
  | .threatDetected _ => 200
  | .accessDenied _ => 403

/-- Python max(all_detections, key=severity weight) (endpoints.py lines
107-108): the first detection of maximal weight wins, because max replaces
the running best only on a strictly greater key. Python max raises on an
empty sequence; handle_event reaches this call only with a nonempty list,
so the head default of the empty case is never used there. -/
def pyMaxBySeverity (w : String → ℕ) (dets : List Detection) : Detection :=
  match dets with
  | [] => ⟨"", "", ""⟩
  | d :: rest => rest.foldl (fun acc x => if w acc.severity < w x.severity then x else acc) d

/-- handle_event (endpoints.py lines 54-133), after the detection phase:
if nothing was detected return the no-threat status and touch nothing;
otherwise append to error_event_timestamps, compute the risk score
(calculate_risk_score lives in app/services/detection.py and is passed in
as a function parameter, as is settings.SEVERITY_WEIGHTS), build the
initial report, persist it, append it to attack_history, schedule the
three background tasks, and finally rate-limit the source IP with a 403
response when severity is CRITICAL or the score reaches 0.8. The result is
(response, new state, scheduled background tasks, persisted log record). -/
def handleEvent (stages : List Stage) (llm : StageOutcome)
    (calculate_risk_score : List Detection → RiskScore)
    (severity_weights : String → ℕ)
    (ip timestampStr : String) (now rateLimitDuration : ℚ)
    (st : AppStateM) :
    EventResponse × AppStateM × List BgTask × Option IncidentReport :=
  let pr := runPipeline stages llm
  if pr.detections = [] then
    (.noThreat, st, [], none)
  else
    let st1 : AppStateM :=
      { st with error_event_timestamps := dequeAppend 500 st.error_event_timestamps now }
    let risk := calculate_risk_score pr.detections
    let primary := pyMaxBySeverity severity_weights pr.detections
    let report : IncidentReport :=
      { attack_type := primary.attack_type, severity := risk.severity,
        risk_score := risk.score, risk_factors := risk.factors,
        ip := ip, timestamp := timestampStr }
    let st2 : AppStateM :=
      { st1 with attack_history := dequeAppend 1000 st1.attack_history report }
    let tasks := [BgTask.notifyAlerts report, BgTask.broadcastAttack report,
      BgTask.updateLocation report]
    if risk.severity = "CRITICAL" ∨ (0.8 : ℚ) ≤ risk.score then
      let st3 : AppStateM :=
        { st2 with rate_limited_ips :=
            fun k => if k = ip then some (now + rateLimitDuration) else st2.rate_limited_ips k }
      (.accessDenied report, st3, tasks, some report)
    else
      (.threatDetected report, st2, tasks, some report)

/-- C2: on a detected event, if the computed RiskScore has severity CRITICAL
or score at least 0.8 then handle_event answers 403 carrying the incident
report and overwrites the source IP's rate-limit expiry with
now + RATE_LIMIT_DURATION whatever the table held before (the table is
universally quantified), leaving other IPs untouched; on a detected event
below the threshold it answers 200 and returns the table unchanged. -/
theorem C2_rate_limit_threshold (stages : List Stage) (llm : StageOutcome)
    (calculate_risk_score : List Detection → RiskScore)
    (severity_weights : String → ℕ)
    (ip timestampStr : String) (now rateLimitDuration : ℚ)
    (st : AppStateM)
    (hne : (runPipeline stages llm).detections ≠ []) :
    (((calculate_risk_score (runPipeline stages llm).detections).severity = "CRITICAL" ∨
      (0.8 : ℚ) ≤ (calculate_risk_score (runPipeline stages llm).detections).score) →
      statusCode (handleEvent stages llm calculate_risk_score severity_weights
        ip timestampStr now rateLimitDuration st).1 = 403 ∧
      (∃ r, (handleEvent stages llm calculate_risk_score severity_weights
        ip timestampStr now rateLimitDuration st).1 = .accessDenied r) ∧
      (handleEvent stages llm calculate_risk_score severity_weights
        ip timestampStr now rateLimitDuration st).2.1.rate_limited_ips ip =
        some (now + rateLimitDuration) ∧
      (∀ k, k ≠ ip → (handleEvent stages llm calculate_risk_score severity_weights
        ip timestampStr now rateLimitDuration st).2.1.rate_limited_ips k =
        st.rate_limited_ips k)) ∧
    (¬((calculate_risk_score (runPipeline stages llm).detections).severity = "CRITICAL" ∨
      (0.8 : ℚ) ≤ (calculate_risk_score (runPipeline stages llm).detections).score) →
      statusCode (handleEvent stages llm calculate_risk_score severity_weights
        ip timestampStr now rateLimitDuration st).1 = 200 ∧
      (handleEvent stages llm calculate_risk_score severity_weights
        ip timestampStr now rateLimitDuration st).2.1.rate_limited_ips =
        st.rate_limited_ips) := by
  constructor
  · intro hhigh
    simp only [handleEvent, if_neg hne, if_pos hhigh]
    refine ⟨rfl, ⟨_, rfl⟩, ?_, ?_⟩
    · simp
    · intro k hk
      simp [if_neg hk]
  · intro hlow
    simp only [handleEvent, if_neg hne, if_neg hlow]
    exact ⟨rfl, trivial⟩

/-- Witness for C2: a concrete CRITICAL card-testing detection drives the
403 branch with the expiry written for the source IP. -/
theorem C2_witness :
    ((runPipeline [⟨"detect_card_testing", .ok (some ⟨"Card Testing", "CRITICAL", "d"⟩)⟩]
        (.ok none)).detections ≠ [] ∧
     ((fun dets => (⟨(95 : ℚ)/100, ["f"], "CRITICAL"⟩ : RiskScore)) ((runPipeline
        [⟨"detect_card_testing", .ok (some ⟨"Card Testing", "CRITICAL", "d"⟩)⟩]
        (.ok none)).detections)).severity = "CRITICAL") ∧
    statusCode (handleEvent
      [⟨"detect_card_testing", .ok (some ⟨"Card Testing", "CRITICAL", "d"⟩)⟩]
      (.ok none) (fun dets => ⟨(95 : ℚ)/100, ["f"], "CRITICAL"⟩) (fun _ => 1)
      "10.0.0.5" "t0" 1000 300
      ⟨fun _ => none, [], []⟩).1 = 403 ∧
    (handleEvent
      [⟨"detect_card_testing", .ok (some ⟨"Card Testing", "CRITICAL", "d"⟩)⟩]
      (.ok none) (fun dets => ⟨(95 : ℚ)/100, ["f"], "CRITICAL"⟩) (fun _ => 1)
      "10.0.0.5" "t0" 1000 300
      ⟨fun _ => none, [], []⟩).2.1.rate_limited_ips "10.0.0.5" = some 1300 := by
  refine ⟨⟨by decide, rfl⟩, ?_, ?_⟩
  · exact ((C2_rate_limit_threshold _ _ _ _ "10.0.0.5" "t0" 1000 300 _
      (by decide)).1 (Or.inl rfl)).1
  · have h := ((C2_rate_limit_threshold
      [⟨"detect_card_testing", .ok (some ⟨"Card Testing", "CRITICAL", "d"⟩)⟩]
      (.ok none) (fun dets => ⟨(95 : ℚ)/100, ["f"], "CRITICAL"⟩) (fun _ => 1)
      "10.0.0.5" "t0" 1000 300 ⟨fun _ => none, [], []⟩
      (by decide)).1 (Or.inl rfl)).2.2.1
    rw [h]; norm_num

/-- C10: when no detector produces a detection, handle_event returns the
no-threat status with HTTP 200 and leaves everything untouched: the state
(rate-limit table, error_event_timestamps, attack_history) is returned
as-is, no background task is scheduled and nothing is persisted. -/
theorem C10_no_threat_frame (stages : List Stage) (llm : StageOutcome)
    (calculate_risk_score : List Detection → RiskScore)
    (severity_weights : String → ℕ)
    (ip timestampStr : String) (now rateLimitDuration : ℚ)
    (st : AppStateM)
    (hempty : (runPipeline stages llm).detections = []) :
    handleEvent stages llm calculate_risk_score severity_weights
      ip timestampStr now rateLimitDuration st =
      (EventResponse.noThreat, st, [], none) ∧
    statusCode (handleEvent stages llm calculate_risk_score severity_weights
      ip timestampStr now rateLimitDuration st).1 = 200 := by
  have h : handleEvent stages llm calculate_risk_score severity_weights
      ip timestampStr now rateLimitDuration st =
      (EventResponse.noThreat, st, [], none) := by
    simp only [handleEvent, if_pos hempty]
  exact ⟨h, by rw [h]; rfl⟩

/-- Witness for C10: a pipeline where every stage returns None or raises
yields the untouched-state no-threat outcome. -/
theorem C10_witness :
    (runPipeline [⟨"detect_sql_injection", .ok none⟩, ⟨"detect_brute_force", .err "boom"⟩]
      (.ok none)).detections = [] ∧
    (handleEvent [⟨"detect_sql_injection", .ok none⟩, ⟨"detect_brute_force", .err "boom"⟩]
      (.ok none) (fun _ => ⟨0, [], "LOW"⟩) (fun _ => 1)
      "10.0.0.5" "t0" 1000 300 ⟨fun _ => none, [], []⟩ =
      (EventResponse.noThreat, ⟨fun _ => none, [], []⟩, [], none) ∧
     statusCode (handleEvent [⟨"detect_sql_injection", .ok none⟩,
      ⟨"detect_brute_force", .err "boom"⟩]
      (.ok none) (fun _ => ⟨0, [], "LOW"⟩) (fun _ => 1)
      "10.0.0.5" "t0" 1000 300 ⟨fun _ => none, [], []⟩).1 = 200) :=
  ⟨by decide, C10_no_threat_frame _ _ _ _ _ _ _ _ _ (by decide)⟩

/-- One registered websocket observer in ConnectionManager.active_connections
(app/api/websocket.py): an identity plus whether send_text succeeds for the
message under consideration. -/
structure Observer where
  id : ℕ
  sendOk : Bool
  deriving DecidableEq, Repr

/-- connection.send_text for one observer: delivery either returns or
raises; broadcast catches the exception of a failing observer. -/
def sendText (o : Observer) : Except String Unit :=
  if o.sendOk then .ok () else .error "send failed"

/-- json.dumps(message, default=str) in broadcast: either a serialized
payload or an exception, which broadcast catches (log and return). -/
def serializeMessage (ok : Bool) : Except String String :=
  if ok then .ok "json" else .error "serialization failed"

/-- The delivery loop of ConnectionManager.broadcast (websocket.py lines
50-57): each connection is attempted in turn; a raising send only adds that
connection to the disconnected set. Returns (disconnected, attempted ids). -/
def broadcastLoop : List Observer → List Observer × List ℕ
  | [] => ([], [])
  | o :: rest =>
    match sendText o with
    | .ok _ =>
      let r := broadcastLoop rest
      (r.1, o.id :: r.2)
    | .error _ =>
      let r := broadcastLoop rest
      (o :: r.1, o.id :: r.2)

/-- ConnectionManager.broadcast (websocket.py lines 38-59): no-op on an
empty observer set; a serialization failure is logged and the broadcast
aborted; otherwise delivery is attempted to every observer and the
disconnected ones are removed from the set afterwards. The Except result
witnesses that no exception escapes to the caller: every path is .ok. -/
def broadcast (conns : List Observer) (serializeOk : Bool) :
    Except String (List Observer × List ℕ) :=
  if conns.isEmpty then .ok (conns, [])
  else
    match serializeMessage serializeOk with
    | .error _ => .ok (conns, [])
    | .ok _ =>
      let r := broadcastLoop conns
      .ok (conns.filter (fun o => decide (o ∉ r.1)), r.2)

lemma broadcastLoop_disconnected (conns : List Observer) :
    (broadcastLoop conns).1 = conns.filter (fun o => !o.sendOk) := by
  induction conns with
  | nil => simp [broadcastLoop]
  | cons o rest ih =>
    by_cases hs : o.sendOk
    · simp [broadcastLoop, sendText, hs, ih]
    · simp [broadcastLoop, sendText, hs, ih]

lemma broadcastLoop_attempted (conns : List Observer) :
    (broadcastLoop conns).2 = conns.map Observer.id := by
  induction conns with
  | nil => simp [broadcastLoop]
  | cons o rest ih =>
    by_cases hs : o.sendOk
    · simp [broadcastLoop, sendText, hs, ih]
    · simp [broadcastLoop, sendText, hs, ih]

lemma filter_not_mem_filter_not (conns : List Observer) :
    conns.filter (fun o => decide (o ∉ conns.filter (fun o => !o.sendOk))) =
      conns.filter (fun o => o.sendOk) := by
  apply List.filter_congr
  intro o ho
  by_cases hs : o.sendOk
  · simp [List.mem_filter, hs]
  · simp [List.mem_filter, ho, hs]

lemma length_filter_add_split (conns : List Observer) :
    (conns.filter (fun o => o.sendOk)).length +
      (conns.filter (fun o => !o.sendOk)).length = conns.length := by
  induction conns with
  | nil => simp
  | cons o rest ih =>
    by_cases hs : o.sendOk <;> simp [List.filter_cons, hs] <;> omega

lemma length_filter_sendOk (conns : List Observer) :
    (conns.filter (fun o => o.sendOk)).length =
      conns.length - (conns.filter (fun o => !o.sendOk)).length := by
  have h := length_filter_add_split conns
  omega

/-- C3: a broadcast over N observers of which M < N fail delivery returns
normally (an .ok result, nothing escapes to the caller) with the observer
set reduced to exactly the N - M survivors; every observer, failing or not,
had delivery attempted. Serialization failures also return .ok with the set
untouched. -/
theorem C3_broadcast_partial_failure (conns : List Observer)
    (hM : (conns.filter (fun o => !o.sendOk)).length < conns.length) :
    broadcast conns true =
      .ok (conns.filter (fun o => o.sendOk), conns.map Observer.id) ∧
    (conns.filter (fun o => o.sendOk)).length =
      conns.length - (conns.filter (fun o => !o.sendOk)).length ∧
    (∀ sOk : Bool, ∃ r, broadcast conns sOk = Except.ok r) := by
  have hne : conns.isEmpty = false := by
    cases conns with
    | nil => simp at hM
    | cons a l => rfl
  have hmain : broadcast conns true =
      Except.ok (conns.filter (fun o => o.sendOk), conns.map Observer.id) := by
    simp [broadcast, hne, serializeMessage, broadcastLoop_disconnected,
      broadcastLoop_attempted]
    apply List.filter_congr
    intro o ho
    simp [ho]
  refine ⟨hmain, length_filter_sendOk conns, ?_⟩
  intro sOk
  cases sOk with
  | true => exact ⟨_, hmain⟩
  | false => exact ⟨(conns, []), by simp [broadcast, hne, serializeMessage]⟩

/-- Witness for C3: three observers, one failing, broadcast succeeds and the
set afterwards holds the two survivors. -/
theorem C3_witness :
    ((([⟨1, true⟩, ⟨2, false⟩, ⟨3, true⟩] : List Observer).filter
        (fun o => !o.sendOk)).length <
      ([⟨1, true⟩, ⟨2, false⟩, ⟨3, true⟩] : List Observer).length) ∧
    (broadcast [⟨1, true⟩, ⟨2, false⟩, ⟨3, true⟩] true =
      .ok (([⟨1, true⟩, ⟨2, false⟩, ⟨3, true⟩] : List Observer).filter
        (fun o => o.sendOk), [1, 2, 3]) ∧
     (([⟨1, true⟩, ⟨2, false⟩, ⟨3, true⟩] : List Observer).filter
        (fun o => o.sendOk)).length = 3 - 1) := by
  have h := C3_broadcast_partial_failure [⟨1, true⟩, ⟨2, false⟩, ⟨3, true⟩]
    (by decide)
  exact ⟨by decide, by rw [h.1]; rfl, by rw [h.2.1]; decide⟩

/-- LLMCircuitState (app/state.py lines 14-19): the record guarding the LLM
detector stage. Timestamps are rationals. -/
structure LLMCircuitState where
  is_open : Bool := false
  last_failure_time : ℚ := 0
  failure_count : ℕ := 0
  last_error : String := ""
  deriving DecidableEq, Repr

/-- The fixed breaker parameters of settings (app/config.py, absent from
the checkout): failure threshold, trailing window, cool-down. -/
structure CircuitConfig where
  failure_threshold : ℕ
  window : ℚ
  cooldown : ℚ
  deriving DecidableEq, Repr

/-- What one attempted LLM detector call would do if invoked. -/
inductive LLMCallOutcome where
  | success (d : Option Detection)
  | failure (msg : String)
  deriving DecidableEq, Repr

/-- Result of one guarded call: the breaker state afterwards, whether the
guarded detector was actually invoked, and the detection contributed. -/
structure CircuitCallResult where
  state : LLMCircuitState
  invoked : Bool
  detection : Option Detection
  deriving DecidableEq, Repr

/-- Modelled from the spec: the circuit-breaker wrapper around
detect_llm_anomaly lives in app/services/detection.py, which is not part of
the checkout; only the LLMCircuitState record (app/state.py) is. Following
spec section 4.3: while OPEN and before the cool-down has elapsed, the call
is skipped entirely (no invocation, the stage contributes no detection, the
state is untouched); otherwise the call is attempted; a success resets
failure_count to 0 and closes the breaker; a failure counts within the
trailing window (a failure after the window restarts the count), records
the failure time and error, keeps an OPEN breaker OPEN (restarting its
cool-down) and opens a CLOSED one once the count reaches the threshold. -/
def circuitCall (cfg : CircuitConfig) (s : LLMCircuitState) (now : ℚ)
    (out : LLMCallOutcome) : CircuitCallResult :=
  if s.is_open = true ∧ now - s.last_failure_time < cfg.cooldown then
    ⟨s, false, none⟩
  else
    match out with
    | .success d => ⟨⟨false, s.last_failure_time, 0, s.last_error⟩, true, d⟩
    | .failure m =>
      let fc := (if now - s.last_failure_time ≤ cfg.window then s.failure_count else 0) + 1
      ⟨⟨s.is_open || decide (cfg.failure_threshold ≤ fc), now, fc, m⟩, true, none⟩

/-- The breaker status string computed by broadcast_metrics_periodically
(websocket.py lines 105-110): OPEN when is_open, else DEGRADED when
failure_count > 0, else ACTIVE. -/
def llmStatus (s : LLMCircuitState) : String :=
  if s.is_open then "OPEN"
  else if 0 < s.failure_count then "DEGRADED"
  else "ACTIVE"

/-- C4: once a failure within the trailing window brings the count to the
threshold, the breaker ends the call open; and from any open state, a call
arriving before the cool-down has elapsed is skipped entirely — the guarded
detector is not invoked, no detection is contributed, the state is
untouched — while the reported status is OPEN. -/
theorem C4_open_breaker_skips_calls (cfg : CircuitConfig) (s : LLMCircuitState)
    (now : ℚ) (m : String)
    (hwin : now - s.last_failure_time ≤ cfg.window)
    (hth : cfg.failure_threshold ≤ s.failure_count + 1)
    (s' : LLMCircuitState) (now' : ℚ) (out : LLMCallOutcome)
    (hopen : s'.is_open = true)
    (hcool : now' - s'.last_failure_time < cfg.cooldown) :
    (circuitCall cfg s now (.failure m)).state.is_open = true ∧
    circuitCall cfg s' now' out = ⟨s', false, none⟩ ∧
    llmStatus s' = "OPEN" := by
  refine ⟨?_, ?_, ?_⟩
  · by_cases hskip : s.is_open = true ∧ now - s.last_failure_time < cfg.cooldown
    · simp only [circuitCall, if_pos hskip]
      exact hskip.1
    · simp only [circuitCall, if_neg hskip, if_pos hwin]
      simp [hth]
  · have hc : s'.is_open = true ∧ now' - s'.last_failure_time < cfg.cooldown :=
      ⟨hopen, hcool⟩
    simp only [circuitCall, if_pos hc]
  · simp [llmStatus, hopen]

/-- Witness for C4 at concrete values: threshold 5, window 60, cool-down
300; a fifth failure at t=130 opens the breaker; a call at t=200 against an
open breaker is skipped and the status reads OPEN. -/
theorem C4_witness :
    ((130 : ℚ) - 100 ≤ 60 ∧ 5 ≤ 4 + 1 ∧
     (⟨true, 130, 5, "e"⟩ : LLMCircuitState).is_open = true ∧
     (200 : ℚ) - 130 < 300) ∧
    ((circuitCall ⟨5, 60, 300⟩ ⟨false, 100, 4, ""⟩ 130 (.failure "boom")).state.is_open = true ∧
     circuitCall ⟨5, 60, 300⟩ ⟨true, 130, 5, "e"⟩ 200 (.success none) =
       ⟨⟨true, 130, 5, "e"⟩, false, none⟩ ∧
     llmStatus ⟨true, 130, 5, "e"⟩ = "OPEN") :=
  ⟨⟨by norm_num, by norm_num, rfl, by norm_num⟩,
   C4_open_breaker_skips_calls ⟨5, 60, 300⟩ ⟨false, 100, 4, ""⟩ 130 "boom"
     (by norm_num) (by norm_num) ⟨true, 130, 5, "e"⟩ 200 (.success none) rfl (by norm_num)⟩

/-- The metrics slice of AppState touched by the metrics loop: the two
sliding-window deques (maxlen 500 each, state.py lines 41-44) and the
breaker state it reads. -/
structure MetricsState where
  request_timestamps : List ℚ
  error_event_timestamps : List ℚ
  llm_circuit_state : LLMCircuitState

/-- The front-pruning while loop of broadcast_metrics_periodically
(websocket.py lines 94-98): popleft while the deque is nonempty and its
head is strictly older than the cutoff. -/
def pruneOld (cutoff : ℚ) (l : List ℚ) : List ℚ :=
  l.dropWhile (fun t => decide (t < cutoff))

/-- The metrics_update snapshot built each tick (websocket.py lines 112-118). -/
structure MetricsMsg where
  requests_per_minute : ℕ
  error_events_per_minute : ℕ
  active_ws_clients : ℕ
  llm_status : String
  deriving DecidableEq, Repr

/-- One pass of the body of broadcast_metrics_periodically (websocket.py
lines 88-120): prune both deques against cutoff = now - TIME_WINDOW_SECONDS,
then publish the snapshot of the pruned lengths, the observer count and the
breaker status; the circuit state is read, never written. -/
def metricsTick (timeWindowSeconds now : ℚ) (activeClients : ℕ)
    (st : MetricsState) : MetricsMsg × MetricsState :=
  let cutoff := now - timeWindowSeconds
  let reqs := pruneOld cutoff st.request_timestamps
  let errs := pruneOld cutoff st.error_event_timestamps
  (⟨reqs.length, errs.length, activeClients, llmStatus st.llm_circuit_state⟩,
   ⟨reqs, errs, st.llm_circuit_state⟩)

lemma pruneOld_sublist (cutoff : ℚ) (l : List ℚ) :
    (pruneOld cutoff l).Sublist l :=
  List.dropWhile_sublist _

lemma pruneOld_sorted (cutoff : ℚ) (l : List ℚ) (h : List.Sorted (· ≤ ·) l) :
    List.Sorted (· ≤ ·) (pruneOld cutoff l) :=
  List.Pairwise.sublist (pruneOld_sublist cutoff l) h

lemma pruneOld_no_old (cutoff : ℚ) (l : List ℚ) (h : List.Sorted (· ≤ ·) l) :
    ∀ t ∈ pruneOld cutoff l, cutoff ≤ t := by
  induction l with
  | nil => intro t ht; simp [pruneOld] at ht
  | cons a rest ih =>
    intro t ht
    rw [List.sorted_cons] at h
    simp only [pruneOld, List.dropWhile_cons] at ht
    by_cases ha : a < cutoff
    · simp only [ha, decide_True, if_true] at ht
      exact ih h.2 t ht
    · simp only [ha, decide_False, if_false] at ht
      rcases List.mem_cons.mp ht with hteq | htmem
      · rw [hteq]; exact not_lt.mp ha
      · exact le_trans (not_lt.mp ha) (h.1 t htmem)

lemma dequeAppend_length_le {α : Type} (maxlen : ℕ) (hpos : 0 < maxlen)
    (l : List α) (x : α) (hl : l.length ≤ maxlen) :
    (dequeAppend maxlen l x).length ≤ maxlen := by
  unfold dequeAppend
  by_cases h : l.length < maxlen
  · rw [if_pos h]
    simp
    omega
  · rw [if_neg h]
    simp
    omega

lemma dequeAppend_sorted (maxlen : ℕ) (l : List ℚ) (x : ℚ)
    (hs : List.Sorted (· ≤ ·) l) (hx : ∀ t ∈ l, t ≤ x) :
    List.Sorted (· ≤ ·) (dequeAppend maxlen l x) := by
  unfold dequeAppend
  by_cases h : l.length < maxlen
  · rw [if_pos h]
    refine List.pairwise_append.mpr ⟨hs, List.pairwise_singleton _ _, ?_⟩
    intro a ha b hb
    rw [List.mem_singleton] at hb
    rw [hb]
    exact hx a ha
  · rw [if_neg h]
    refine List.pairwise_append.mpr
      ⟨List.Pairwise.sublist (List.drop_sublist _ _) hs,
       List.pairwise_singleton _ _, ?_⟩
    intro a ha b hb
    rw [List.mem_singleton] at hb
    rw [hb]
    exact hx a (List.mem_of_mem_drop ha)

/-- C5: the deque append keeps each sliding-window sequence within its
maximum length and sorted (appended timestamps are taken at the current,
hence largest, time), and one prune pass of the metrics loop keeps both
sequences sorted, within bounds, and free of entries strictly older than
now - TIME_WINDOW_SECONDS. -/
theorem C5_sliding_window_invariants (l : List ℚ) (x timeWindowSeconds now : ℚ)
    (n : ℕ) (st : MetricsState)
    (hsort : List.Sorted (· ≤ ·) l) (hlen : l.length ≤ 500)
    (hx : ∀ t ∈ l, t ≤ x)
    (hr : List.Sorted (· ≤ ·) st.request_timestamps)
    (he : List.Sorted (· ≤ ·) st.error_event_timestamps)
    (hrl : st.request_timestamps.length ≤ 500)
    (hel : st.error_event_timestamps.length ≤ 500) :
    (dequeAppend 500 l x).length ≤ 500 ∧
    List.Sorted (· ≤ ·) (dequeAppend 500 l x) ∧
    List.Sorted (· ≤ ·) (metricsTick timeWindowSeconds now n st).2.request_timestamps ∧
    List.Sorted (· ≤ ·) (metricsTick timeWindowSeconds now n st).2.error_event_timestamps ∧
    (metricsTick timeWindowSeconds now n st).2.request_timestamps.length ≤ 500 ∧
    (metricsTick timeWindowSeconds now n st).2.error_event_timestamps.length ≤ 500 ∧
    (∀ t ∈ (metricsTick timeWindowSeconds now n st).2.request_timestamps,
      now - timeWindowSeconds ≤ t) ∧
    (∀ t ∈ (metricsTick timeWindowSeconds now n st).2.error_event_timestamps,
      now - timeWindowSeconds ≤ t) := by
  refine ⟨dequeAppend_length_le 500 (by norm_num) l x hlen,
    dequeAppend_sorted 500 l x hsort hx, ?_, ?_, ?_, ?_, ?_, ?_⟩
  · exact pruneOld_sorted _ _ hr
  · exact pruneOld_sorted _ _ he
  · exact le_trans (List.Sublist.length_le (pruneOld_sublist _ _)) hrl
  · exact le_trans (List.Sublist.length_le (pruneOld_sublist _ _)) hel
  · exact pruneOld_no_old _ _ hr
  · exact pruneOld_no_old _ _ he

/-- Witness for C5 at a concrete state: two-element sorted deques, one
entry older than the window, pruned by one tick. -/
theorem C5_witness :
    (List.Sorted (· ≤ ·) ([1, 2] : List ℚ) ∧
     ([1, 2] : List ℚ).length ≤ 500 ∧
     (∀ t ∈ ([1, 2] : List ℚ), t ≤ (3 : ℚ)) ∧
     List.Sorted (· ≤ ·) ([10, 200] : List ℚ) ∧
     List.Sorted (· ≤ ·) ([20, 300] : List ℚ) ∧
     ([10, 200] : List ℚ).length ≤ 500 ∧
     ([20, 300] : List ℚ).length ≤ 500) ∧
    ((dequeAppend 500 ([1, 2] : List ℚ) 3).length ≤ 500 ∧
     List.Sorted (· ≤ ·) (dequeAppend 500 ([1, 2] : List ℚ) 3) ∧
     List.Sorted (· ≤ ·)
       (metricsTick 3600 3700 7 ⟨[10, 200], [20, 300], {}⟩).2.request_timestamps ∧
     List.Sorted (· ≤ ·)
       (metricsTick 3600 3700 7 ⟨[10, 200], [20, 300], {}⟩).2.error_event_timestamps ∧
     (metricsTick 3600 3700 7 ⟨[10, 200], [20, 300], {}⟩).2.request_timestamps.length ≤ 500 ∧
     (metricsTick 3600 3700 7 ⟨[10, 200], [20, 300], {}⟩).2.error_event_timestamps.length ≤ 500 ∧
     (∀ t ∈ (metricsTick 3600 3700 7 ⟨[10, 200], [20, 300], {}⟩).2.request_timestamps,
       (3700 : ℚ) - 3600 ≤ t) ∧
     (∀ t ∈ (metricsTick 3600 3700 7 ⟨[10, 200], [20, 300], {}⟩).2.error_event_timestamps,
       (3700 : ℚ) - 3600 ≤ t)) := by
  constructor
  · refine ⟨?_, by norm_num, ?_, ?_, ?_, by norm_num, by norm_num⟩
    · norm_num [List.sorted_cons]
    · intro t ht
      rcases List.mem_cons.mp ht with h | h
      · rw [h]; norm_num
      · rw [List.mem_singleton] at h; rw [h]; norm_num
    · norm_num [List.sorted_cons]
    · norm_num [List.sorted_cons]
  · exact C5_sliding_window_invariants [1, 2] 3 3600 3700 7
      ⟨[10, 200], [20, 300], {}⟩
      (by norm_num [List.sorted_cons]) (by norm_num)
      (by intro t ht
          rcases List.mem_cons.mp ht with h | h
          · rw [h]; norm_num
          · rw [List.mem_singleton] at h; rw [h]; norm_num)
      (by norm_num [List.sorted_cons])
      (by norm_num [List.sorted_cons])
      (by norm_num) (by norm_num)

lemma llmStatus_DEGRADED_iff (s : LLMCircuitState) :
    llmStatus s = "DEGRADED" ↔ s.is_open = false ∧ 0 < s.failure_count := by
  by_cases ho : s.is_open
  · simp [llmStatus, ho, show ("OPEN" : String) ≠ "DEGRADED" from by decide]
  · by_cases hf : 0 < s.failure_count
    · simp [llmStatus, ho, hf]
    · simp [llmStatus, ho, hf,
        show ("ACTIVE" : String) ≠ "DEGRADED" from by decide]

lemma llmStatus_OPEN_iff (s : LLMCircuitState) :
    llmStatus s = "OPEN" ↔ s.is_open = true := by
  by_cases ho : s.is_open
  · simp [llmStatus, ho]
  · by_cases hf : 0 < s.failure_count
    · simp [llmStatus, ho, hf, show ("DEGRADED" : String) ≠ "OPEN" from by decide]
    · simp [llmStatus, ho, hf, show ("ACTIVE" : String) ≠ "OPEN" from by decide]

lemma llmStatus_ACTIVE_iff (s : LLMCircuitState) :
    llmStatus s = "ACTIVE" ↔ s.is_open = false ∧ s.failure_count = 0 := by
  by_cases ho : s.is_open
  · simp [llmStatus, ho, show ("OPEN" : String) ≠ "ACTIVE" from by decide]
  · by_cases hf : 0 < s.failure_count
    · simp [llmStatus, ho, hf, show ("DEGRADED" : String) ≠ "ACTIVE" from by decide]
      omega
    · simp [llmStatus, ho, hf]
      omega

/-- C6: the DEGRADED status is a pure read-only projection: a metrics tick
returns the circuit state unchanged, and the published status is DEGRADED
exactly when the breaker is closed with a nonzero failure count, OPEN
exactly when is_open holds, and ACTIVE exactly otherwise. -/
theorem C6_degraded_is_projection (timeWindowSeconds now : ℚ) (n : ℕ)
    (st : MetricsState) :
    (metricsTick timeWindowSeconds now n st).2.llm_circuit_state = st.llm_circuit_state ∧
    ((metricsTick timeWindowSeconds now n st).1.llm_status = "DEGRADED" ↔
      st.llm_circuit_state.is_open = false ∧ 0 < st.llm_circuit_state.failure_count) ∧
    ((metricsTick timeWindowSeconds now n st).1.llm_status = "OPEN" ↔
      st.llm_circuit_state.is_open = true) ∧
    ((metricsTick timeWindowSeconds now n st).1.llm_status = "ACTIVE" ↔
      st.llm_circuit_state.is_open = false ∧ st.llm_circuit_state.failure_count = 0) :=
  ⟨rfl, llmStatus_DEGRADED_iff st.llm_circuit_state,
   llmStatus_OPEN_iff st.llm_circuit_state,
   llmStatus_ACTIVE_iff st.llm_circuit_state⟩

/-- WebsiteMonitorConfig (app/models.py), reduced to the fields the
monitor-registry claims touch. -/
structure WebsiteMonitorConfigM where
  url : String
  check_interval : ℕ
  deriving DecidableEq, Repr

/-- The monitor-registry slice of AppState (state.py lines 52-59):
monitored_websites maps a URL to its config; active_monitoring_tasks holds
the URL of each live background task. -/
structure MonitorState where
  monitored_websites : List (String × WebsiteMonitorConfigM)
  active_monitoring_tasks : List String
  deriving DecidableEq, Repr

/-- Responses of the monitor removal endpoint: a normal payload or an
HTTPException with status code and detail. -/
inductive MonitorResponse where
  | ok (detail : String)
  | httpError (code : ℕ) (detail : String)
  deriving DecidableEq, Repr

/-- remove_monitor_endpoint (endpoints.py lines 221-237), after URL
decoding: a URL not in app_state.monitored_websites is answered with
HTTPException 404 "Website not found." before anything is touched; a
registered one is handed to stop_website_monitoring
(app/services/monitoring.py, absent from the checkout, passed in as a
parameter; the endpoint maps its failure to a 500). -/
def remove_monitor_endpoint
    (stop_website_monitoring : String → MonitorState → MonitorResponse × MonitorState)
    (decoded_url : String) (st : MonitorState) : MonitorResponse × MonitorState :=
  if decoded_url ∈ st.monitored_websites.map Prod.fst then
    stop_website_monitoring decoded_url st
  else (.httpError 404 "Website not found.", st)

/-- C7: removing a URL that is not registered in the monitor registry
answers 404 "Website not found." and leaves the monitored-website set and
the task registry exactly as they were, whatever stop_website_monitoring
would have done. -/
theorem C7_remove_unregistered_is_404
    (stop_website_monitoring : String → MonitorState → MonitorResponse × MonitorState)
    (decoded_url : String) (st : MonitorState)
    (h : decoded_url ∉ st.monitored_websites.map Prod.fst) :
    remove_monitor_endpoint stop_website_monitoring decoded_url st =
      (.httpError 404 "Website not found.", st) ∧
    (remove_monitor_endpoint stop_website_monitoring decoded_url st).2.monitored_websites =
      st.monitored_websites ∧
    (remove_monitor_endpoint stop_website_monitoring decoded_url st).2.active_monitoring_tasks =
      st.active_monitoring_tasks := by
  have heq : remove_monitor_endpoint stop_website_monitoring decoded_url st =
      (.httpError 404 "Website not found.", st) := by
    simp only [remove_monitor_endpoint, if_neg h]
  exact ⟨heq, by rw [heq], by rw [heq]⟩

/-- Witness for C7: one registered site, a different URL asked for removal,
even against a stop function that would wipe everything. -/
theorem C7_witness :
    ("https://b.example" ∉
      (⟨[("https://a.example", ⟨"https://a.example", 60⟩)], ["https://a.example"]⟩ :
        MonitorState).monitored_websites.map Prod.fst) ∧
    remove_monitor_endpoint (fun _ _ => (.ok "stopped", ⟨[], []⟩)) "https://b.example"
      ⟨[("https://a.example", ⟨"https://a.example", 60⟩)], ["https://a.example"]⟩ =
      (.httpError 404 "Website not found.",
       ⟨[("https://a.example", ⟨"https://a.example", 60⟩)], ["https://a.example"]⟩) :=
  ⟨by decide,
   (C7_remove_unregistered_is_404 (fun _ _ => (.ok "stopped", ⟨[], []⟩))
     "https://b.example"
     ⟨[("https://a.example", ⟨"https://a.example", 60⟩)], ["https://a.example"]⟩
     (by decide)).1⟩

/-- Observable states of the persisted attack log file as the readers see
it: absent, present but empty, parsing to a JSON list (entries kept
opaque), parsing to a non-list JSON value, or failing to parse. -/
inductive LogFileContent where
  | missing
  | empty
  | parsedList (entries : List String)
  | parsedNonList
  | unparseable
  deriving DecidableEq, Repr

/-- A parsed JSON value as threat_service returns it: a list or not. -/
inductive ParsedJson where
  | list (entries : List String)
  | nonList
  deriving DecidableEq, Repr

/-- The read-or-reset step of log_secure_attack_event (utils.py lines
98-113): a missing file, empty content, a JSONDecodeError, or a non-list
value all reset the in-memory log to []. -/
def readLogForAppend : LogFileContent → List String
  | .missing => []
  | .empty => []
  | .parsedList l => l
  | .parsedNonList => []
  | .unparseable => []

/-- log_secure_attack_event (utils.py lines 69-127), reduced to its effect
on the persisted list: read or reset, then append the entry and write the
whole list back; write errors are caught and logged, so the function is
total toward its caller. -/
def log_secure_attack_event (c : LogFileContent) (entry : String) : List String :=
  readLogForAppend c ++ [entry]

/-- get_attack_log_endpoint (endpoints.py lines 165-184): [] for a missing
file or empty content, the parsed list when valid, and HTTPException 500
when the content fails to parse or is not a list (the in-try 500 for a
non-list and the except-raised 500 coincide in status). -/
def get_attack_log_endpoint : LogFileContent → Except ℕ (List String)
  | .missing => .ok []
  | .empty => .ok []
  | .parsedList l => .ok l
  | .parsedNonList => .error 500
  | .unparseable => .error 500

/-- threat_service.get_attack_logs (threat_service.py lines 11-23):
HTTPException 404 for a missing file, 500 when json.load raises (empty or
unparseable content), otherwise the parsed value without any list check. -/
def get_attack_logs : LogFileContent → Except ℕ ParsedJson
  | .missing => .error 404
  | .empty => .error 500
  | .parsedList l => .ok (.list l)
  | .parsedNonList => .ok .nonList
  | .unparseable => .error 500

/-- C8 counterexample: on an unparseable log file the retrieval endpoint
raises HTTP 500 instead of returning an empty result, so retrieval does
not treat malformed state as empty. -/
theorem C8_counterexample :
    get_attack_log_endpoint LogFileContent.unparseable = Except.error 500 := rfl

/-- C8 (amended): the writer path treats a missing, empty, malformed, or
non-list log file as an empty log and resets it before appending, never
failing toward its caller; the retrieval endpoint returns an empty result
only for a missing or empty file and fails with HTTP 500 on malformed or
non-list content; threat_service.get_attack_logs fails with 404 on a
missing file and 500 on unparseable content. -/
theorem C8_log_reset_and_retrieval (entry : String) (l : List String) :
    log_secure_attack_event .missing entry = [entry] ∧
    log_secure_attack_event .empty entry = [entry] ∧
    log_secure_attack_event .parsedNonList entry = [entry] ∧
    log_secure_attack_event .unparseable entry = [entry] ∧
    log_secure_attack_event (.parsedList l) entry = l ++ [entry] ∧
    get_attack_log_endpoint .missing = .ok [] ∧
    get_attack_log_endpoint .empty = .ok [] ∧
    get_attack_log_endpoint (.parsedList l) = .ok l ∧
    get_attack_log_endpoint .parsedNonList = .error 500 ∧
    get_attack_log_endpoint .unparseable = .error 500 ∧
    get_attack_logs .missing = .error 404 ∧
    get_attack_logs .unparseable = .error 500 :=
  ⟨rfl, rfl, rfl, rfl, rfl, rfl, rfl, rfl, rfl, rfl, rfl, rfl⟩

/-- A Python value as mask_pii sees it: a string (kept as its character
list), a dict (ordered key/value pairs), or anything else that the
isinstance(str) checks reject (numbers, None, nested values), tagged to
keep distinct values distinct. -/
inductive PyVal where
  | vstr (s : List Char)
  | vdict (entries : List (String × PyVal))
  | vother (tag : ℕ)

/-- The replacement text "[MASKED]". -/
def maskedTag : List Char := "[MASKED]".data

/-- The card mask head "XXXX-XXXX-XXXX-" (15 characters). -/
def cardMaskHead : List Char := "XXXX-XXXX-XXXX-".data

/-- The generic payment mask tail "...[MASKED]" (11 characters). -/
def payMaskTail : List Char := "...[MASKED]".data

/-- The per-field rule of mask_pii (utils.py lines 31-41): a field in
settings.PII_FIELDS becomes "[MASKED]"; else a card_number string longer
than 4 keeps only its last 4 characters behind "XXXX-XXXX-XXXX-"; else a
string longer than 8 in a settings.PAYMENT_FIELDS field keeps its first 4
characters before "...[MASKED]". The Python elif chain tests
isinstance(str), so non-strings fall through every branch; matching on the
string outermost is equivalent, since a branch taken implies its length
bound and the card test precedes the payment test. -/
def maskFieldVal (pii payment : List String) (k : String) (v : PyVal) : PyVal :=
  if k ∈ pii then .vstr maskedTag
  else
    match v with
    | .vstr s =>
      if k = "card_number" ∧ 4 < s.length then
        .vstr (cardMaskHead ++ s.drop (s.length - 4))
      else if k ∈ payment ∧ 8 < s.length then
        .vstr (s.take 4 ++ payMaskTail)
      else .vstr s
    | w => w

/-- mask_pii (utils.py lines 25-43): a non-dict input is returned as-is; a
dict is copied with every top-level value passed through the field rule
keyed by its field name. settings.PII_FIELDS and settings.PAYMENT_FIELDS
live in app/config.py, absent from the checkout, so the two field lists
are parameters. -/
def mask_pii (pii payment : List String) : PyVal → PyVal
  | .vdict entries =>
      .vdict (entries.map (fun kv => (kv.1, maskFieldVal pii payment kv.1 kv.2)))
  | v => v

lemma maskFieldVal_idem (pii payment : List String) (k : String) (v : PyVal) :
    maskFieldVal pii payment k (maskFieldVal pii payment k v) =
      maskFieldVal pii payment k v := by
  by_cases hpii : k ∈ pii
  · simp [maskFieldVal, hpii]
  · cases v with
    | vdict e => simp [maskFieldVal, hpii]
    | vother t => simp [maskFieldVal, hpii]
    | vstr s =>
      by_cases hcard : k = "card_number" ∧ 4 < s.length
      · have hlen4 : (s.drop (s.length - 4)).length = 4 := by
          rw [List.length_drop]; omega
        have hr : (cardMaskHead ++ s.drop (s.length - 4)).length = 19 := by
          rw [List.length_append, hlen4]; rfl
        have hcard2 : k = "card_number" ∧
            4 < (cardMaskHead ++ s.drop (s.length - 4)).length :=
          ⟨hcard.1, by rw [hr]; norm_num⟩
        have hd : (cardMaskHead ++ s.drop (s.length - 4)).drop
            ((cardMaskHead ++ s.drop (s.length - 4)).length - 4) =
            s.drop (s.length - 4) := by
          rw [hr]
          exact List.drop_left' rfl
        simp only [maskFieldVal, if_neg hpii, if_pos hcard, if_pos hcard2, hd]
      · by_cases hpay : k ∈ payment ∧ 8 < s.length
        · have htake : (s.take 4).length = 4 := by
            rw [List.length_take]; omega
          have hr : (s.take 4 ++ payMaskTail).length = 15 := by
            rw [List.length_append, htake]; rfl
          have hcard2 : ¬(k = "card_number" ∧ 4 < (s.take 4 ++ payMaskTail).length) := by
            intro hcon
            exact hcard ⟨hcon.1, by omega⟩
          have hpay2 : k ∈ payment ∧ 8 < (s.take 4 ++ payMaskTail).length :=
            ⟨hpay.1, by rw [hr]; norm_num⟩
          have ht : (s.take 4 ++ payMaskTail).take 4 = s.take 4 :=
            List.take_left' htake
          simp only [maskFieldVal, if_neg hpii, if_neg hcard, if_pos hpay,
            if_neg hcard2, if_pos hpay2, ht]
        · simp only [maskFieldVal, if_neg hpii, if_neg hcard, if_neg hpay]

/-- C9: mask_pii is idempotent — masking an already-masked dict changes
nothing (a PII field stays "[MASKED]", a masked card number keeps its
last-4 form, a masked payment field keeps its prefix form) — and every
non-dict input (string or otherwise) is returned unchanged. -/
theorem C9_mask_pii_idempotent (pii payment : List String) (v : PyVal) :
    mask_pii pii payment (mask_pii pii payment v) = mask_pii pii payment v ∧
    (∀ s : List Char, mask_pii pii payment (.vstr s) = .vstr s) ∧
    (∀ t : ℕ, mask_pii pii payment (.vother t) = .vother t) := by
  refine ⟨?_, fun s => rfl, fun t => rfl⟩
  cases v with
  | vstr s => rfl
  | vother t => rfl
  | vdict entries =>
    simp only [mask_pii, List.map_map]
    congr 1
    apply List.map_congr_left
    intro kv hkv
    simp [Function.comp, maskFieldVal_idem]
